import Mathlib

/-!
Verification of the retrieval-and-context-assembly pipeline of the
Islamic-scholars chat application (`src/app.py`).

The shallow embedding below translates the program's functions into Lean:

* `CandidateMatch` / `Source` mirror the records returned by the
  `match_documents_hybrid` RPC and the dictionaries built by
  `search_and_retrieve` (`app.py` lines 40-88).  The `similarity` score is
  carried opaquely (the code never computes with it), modelled as `ℚ`;
  `parent_metadata` is an opaque JSON value, modelled as `String`.
* External services (the OpenAI embedding call and the Supabase RPC) are
  passed in as function arguments returning `Except String _`: a Python
  exception raised by the service corresponds to `Except.error`.
* `filter_loop` is the `for result in results.data:` loop of
  `search_and_retrieve` (lines 57-82), with its accumulating
  `filtered_docs` list and `seen_ids` set (the set is modelled as the list
  of inserted ids; only membership is used).
* `context_part` / `full_context` mirror the context-building loop
  (lines 170-174), and `system_message` the prompt f-string (lines 176-361).
* `run_turn` mirrors the chat-turn control flow (lines 149-407): the user
  message is appended to `st.session_state.messages` first, the assistant
  message is appended only after the streaming loop finishes, and any
  exception lands in the `except` branch which shows an error and appends
  nothing.
-/

/-- One hit returned by the `match_documents_hybrid` RPC (spec §6, hybrid
vector search response shape). -/
structure CandidateMatch where
  parent_id : String
  parent_title : String
  parent_author : String
  parent_type : String
  parent_url : String
  parent_content : String
  parent_metadata : String
  chunk_content : String
  similarity : ℚ
  deriving DecidableEq, Repr

/-- The dictionary appended to `filtered_docs` in `search_and_retrieve`
(`app.py` lines 67-77). -/
structure Source where
  id : String
  title : String
  content : String
  type : String
  author : String
  metadata : String
  url : String
  matched_chunk : String
  similarity : ℚ
  deriving DecidableEq, Repr

/-- The record built at `app.py` lines 67-77 from one RPC hit. -/
def candidate_to_source (result : CandidateMatch) : Source :=
  { id := result.parent_id
    title := result.parent_title
    content := result.parent_content
    type := result.parent_type
    author := result.parent_author
    metadata := result.parent_metadata
    url := result.parent_url
    matched_chunk := result.chunk_content
    similarity := result.similarity }

/-- The `match_count` value sent to the `match_documents_hybrid` RPC
(`app.py` line 48: `'match_count': num_results * 2`). -/
def match_count (num_results : Nat) : Nat :=
  num_results * 2

/-- The `for result in results.data:` loop of `search_and_retrieve`
(`app.py` lines 57-82): skip already-seen parent ids, skip facet-filter
failures, otherwise append the hydrated record and its id, and break once
`num_results` records are collected. -/
def filter_loop (author_filter source_type_filter : String) (num_results : Nat) :
    List CandidateMatch → List Source → List String → List Source
  | [], filtered_docs, _ => filtered_docs
  | result :: rest, filtered_docs, seen_ids =>
    if result.parent_id ∈ seen_ids then
      filter_loop author_filter source_type_filter num_results rest filtered_docs seen_ids
    else if author_filter ≠ "All Sources" ∧ result.parent_author ≠ author_filter then
      filter_loop author_filter source_type_filter num_results rest filtered_docs seen_ids
    else if source_type_filter ≠ "All Types" ∧ result.parent_type ≠ source_type_filter then
      filter_loop author_filter source_type_filter num_results rest filtered_docs seen_ids
    else
      let filtered_docs' := filtered_docs ++ [candidate_to_source result]
      let seen_ids' := seen_ids ++ [result.parent_id]
      if num_results ≤ filtered_docs'.length then filtered_docs'
      else filter_loop author_filter source_type_filter num_results rest filtered_docs' seen_ids'

/-- `search_and_retrieve` (`app.py` lines 40-88).  `embed` is the OpenAI
embedding call, `match_documents_hybrid` the Supabase RPC; an `Except.error`
on either corresponds to a raised exception, which the function's
`try/except` catches, returning `[]` (lines 86-88).  An empty RPC result
returns `[]` (lines 51-52). -/
def search_and_retrieve (embed : String → Except String (List ℚ))
    (match_documents_hybrid : List ℚ → Nat → Except String (List CandidateMatch))
    (query : String) (author_filter : String := "All Sources")
    (source_type_filter : String := "All Types") (num_results : Nat := 7) : List Source :=
  match embed query with
  | Except.error _ => []
  | Except.ok query_embedding =>
    match match_documents_hybrid query_embedding (match_count num_results) with
    | Except.error _ => []
    | Except.ok data =>
      if data = [] then []
      else filter_loop author_filter source_type_filter num_results data [] []

/-- The per-source block built at `app.py` line 172:
`f"=== SOURCE {i}: {source['title']} by {source['author']} ===\n\n{source['content']}\n\n"`. -/
def context_part (i : Nat) (source : Source) : String :=
  "=== SOURCE " ++ toString i ++ ": " ++ source.title ++ " by " ++ source.author
    ++ " ===\n\n" ++ source.content ++ "\n\n"

/-- The `for i, source in enumerate(sources, 1):` loop of `app.py`
lines 171-172, started at index `i`. -/
def context_parts_from (i : Nat) : List Source → List String
  | [] => []
  | source :: rest => context_part i source :: context_parts_from (i + 1) rest

/-- The `context_parts` list of `app.py` lines 170-172 (enumeration starts
at 1). -/
def context_parts (sources : List Source) : List String :=
  context_parts_from 1 sources

/-- `full_context = "\n".join(context_parts)` (`app.py` line 174). -/
def full_context (sources : List Source) : String :=
  String.intercalate "\n" (context_parts sources)

/-- The truncation marker named by the spec (§4.4); it appears nowhere in
`src/app.py`. -/
def truncation_marker : String := "[... content truncated ...]"

/-- Whitespace, as Python's `str.split()` (no arguments) understands it for
the spec's word counts. -/
def is_space (c : Char) : Bool :=
  c = ' ' || c = '\n' || c = '\t' || c = '\r'

/-- Modelled from the spec: the word count `len(content.split())` that §4.4
and §8 use to state the truncation budget.  `src/app.py` contains no word
counting at all; this definition only serves to state the claim. -/
def word_count (s : String) : Nat :=
  ((s.data.splitOnP is_space).filter (fun w => w ≠ [])).length

/-- Number of positions of `s` at which `pat` occurs as a contiguous
substring (used to state that the truncation marker occurs exactly once /
never). -/
def count_occur (pat s : List Char) : Nat :=
  ((List.range (s.length + 1)).filter (fun i => decide (pat <+: s.drop i))).length

/-- The header-and-content concatenation of `context_part` without its
final content and separator: used to state that the assembled block embeds
the content unchanged. -/
def context_header (i : Nat) (source : Source) : String :=
  "=== SOURCE " ++ toString i ++ ": " ++ source.title ++ " by " ++ source.author ++ " ===\n\n"

/-- Claim C6 as the spec states it, with the word budget `B` a parameter
(spec §4.4: default 8000): an over-budget content is rendered with the
truncation marker exactly once, an at-or-under-budget content is rendered
unchanged. -/
def truncation_claim (B : Nat) (i : Nat) (source : Source) : Prop :=
  (B < word_count source.content →
    count_occur truncation_marker.data (context_part i source).data = 1)
  ∧ (word_count source.content ≤ B →
    context_part i source = context_header i source ++ source.content ++ "\n\n")

/-- Split a character list into its lines at every newline character (the
line decomposition used by the spec-modelled provenance parser). -/
def split_lines : List Char → List (List Char)
  | [] => [[]]
  | c :: rest =>
    if c = '\n' then [] :: split_lines rest
    else
      match split_lines rest with
      | [] => [[c]]
      | l :: ls => (c :: l) :: ls

/-- The fixed text that opens every provenance header line. -/
def header_marker : List Char := "=== SOURCE ".data

/-- Decimal value of a digit run (most significant digit first). -/
def decode_digits (ds : List Char) : Nat :=
  ds.foldl (fun a c => 10 * a + (c.toNat - '0'.toNat)) 0

/-- Modelled from the spec: `src/app.py` renders provenance headers but
contains no parser for them; spec §8 states a round-trip property
("assembling a Context Block from N Sources then parsing back the
provenance headers recovers exactly N ordinal indices").  A line is a
provenance header when it starts with `"=== SOURCE "` followed by at least
one digit; its ordinal index is that digit run. -/
def header_index (line : List Char) : Option Nat :=
  if header_marker <+: line then
    let ds := (line.drop header_marker.length).takeWhile Char.isDigit
    if ds = [] then none else some (decode_digits ds)
  else none

/-- Modelled from the spec (§8 round-trip): the ordinal indices of the
provenance header lines of an assembled Context Block, in order. -/
def parse_source_indices (block : String) : List Nat :=
  (split_lines block.data).filterMap header_index

/-- Decimal digits of `n`, most significant first (the reference
implementation `Nat.toDigitsCore` in core is fuel-based; this structurally
recursive version is proved equal to it below). -/
def nat_digits (n : Nat) : List Char :=
  if _h : n < 10 then [Nat.digitChar n]
  else nat_digits (n / 10) ++ [Nat.digitChar (n % 10)]
decreasing_by exact Nat.div_lt_self (by omega) (by omega)

/-- A Source whose title, author and content lines cannot be mistaken for
provenance headers: the cleanliness hypothesis of the amended round-trip
claim. -/
def source_clean (s : Source) : Prop :=
  '\n' ∉ s.title.data ∧ '\n' ∉ s.author.data
    ∧ ∀ l ∈ split_lines s.content.data, header_index l = none
/-- Opening of the system prompt f-string (`app.py` line 176 ff.), up to the sentence forbidding source citation. -/
def sys_part1 : String :=
  "You are an Islamic scholar making dawah. Your purpose: prove Islam's truth using evidence from Islamic texts, history, and reason.

**CRITICAL INSTRUCTION:**

The sources below contain Islamic arguments and evidence (Quran verses, Hadith, historical facts, scientific points, logical arguments). 

Your job: EXTRACT that evidence and present it directly. "

/-- The sentence of the system prompt that forbids citing the retrieved sources (`app.py` line 182). -/
def sys_do_not_cite : String :=
  "DO NOT cite the sources themselves."

/-- The WHAT TO CITE section of the system prompt (`app.py` lines 184-191). -/
def sys_part2 : String :=
  "

**WHAT TO CITE:**

✅ Quran verses: \"The Quran states in Surah 2:256...\"
✅ Hadith: \"The Prophet ﷺ said in Sahih Bukhari...\"
✅ Historical facts: \"The manuscript evidence shows...\"
✅ Scientific facts: \"Embryology research confirms...\"
✅ Logical arguments: \"If A, then B...\"
✅ Scholar quotes: \"As Ibn Taymiyyah explained...\"

"

/-- The WHAT NOT TO CITE section of the system prompt (`app.py` lines 193-198): a `[Source 1]` occurrence listed as forbidden. -/
def sys_what_not_to_cite : String :=
  "**WHAT NOT TO CITE:**

❌ The video/book sources
❌ \"[Source 1]...\"
❌ \"According to the scholar in this video...\"
❌ \"This source mentions...\"

"

/-- The YOUR METHOD section of the system prompt (`app.py` lines 200-209), before the wrong-way example. -/
def sys_part3a : String :=
  "**YOUR METHOD:**

1. **READ the sources below - extract the REAL evidence within them**
   - What Quran verses do they reference?
   - What Hadith do they cite?
   - What historical facts do they present?
   - What logical arguments do they build?
   - What scientific evidence do they mention?

2. **PRESENT that evidence directly as YOUR argument**

"

/-- The EXAMPLE - WRONG WAY section of the system prompt (`app.py` lines 211-213): the template's second `[Source 1]` occurrence, displayed as the wrong way to answer. -/
def sys_wrong_way_example : String :=
  "**EXAMPLE - WRONG WAY:**

\"[Source 1] argues that the Quran is preserved. The scholar mentions manuscript evidence.\"

"

/-- The remainder of the system prompt before the interpolated context (`app.py` lines 215-359). -/
def sys_part3b : String :=
  "**EXAMPLE - RIGHT WAY:**

\"The Quran is perfectly preserved. We have the Birmingham manuscript dating to 568-645 CE, within two decades of the Prophet's death. The Topkapi manuscript from the 8th century shows identical text. The chains of memorization (huffaz) created a redundant verification system ensuring accuracy. This level of textual preservation is unmatched in ancient literature.\"

---

**YOUR ARGUMENTATION STYLE:**

**BE DIRECT AND BOLD:**

\"Islam is true. Here's the proof:\"

Not: \"Sources suggest...\" 
Yes: \"The evidence proves...\"

**BUILD LOGICAL ARGUMENTS:**

\"Consider this reasoning:
- PREMISE 1: The universe began to exist (established by Big Bang cosmology)
- PREMISE 2: Whatever begins to exist must have a cause
- PREMISE 3: The cause must be timeless, spaceless, and powerful
- CONCLUSION: This matches the Islamic description of Allah exactly\"

**USE ACTUAL ISLAMIC EVIDENCE:**

When sources mention Quran verses, cite them:
\"The Quran declares in Surah 21:30: 'Do not the disbelievers see that the heavens and the earth were a closed-up mass, then We opened them out?' This describes the Big Bang 1,400 years before science discovered it.\"

When sources mention Hadith, cite them:
\"The Prophet ﷺ said: '[extract the actual Hadith they quote]' - Sahih Bukhari, Book X, Hadith Y\"

When sources mention historical events, present them:
\"In 628 CE, the Prophet predicted the Persian defeat by the Romans within 3-9 years. This came true exactly as prophesied, documented in historical records.\"

**MAKE PHILOSOPHICAL ARGUMENTS:**

Extract the logical reasoning from sources:
\"Think about consciousness. It cannot arise from unconscious matter alone - you can't get 'greater' from 'lesser'. Therefore, consciousness must originate from a conscious source. This is the Islamic concept of Allah - the ultimate consciousness.\"

**ADDRESS OBJECTIONS:**

Extract how sources handle counter-arguments:
\"You might say: 'Evolution contradicts religion.' Not so. Evolution explains HOW life diversifies, not WHY it exists. The question remains: Why is there something rather than nothing? Evolution can't answer that - it presupposes existing life.\"

**YOUR STRUCTURE:**

**1. BOLD OPENING**
\"Islam is the truth. Let me show you why.\"

**2. PRESENT EVIDENCE** (extracted from sources)
\"First, consider the Quran's preservation...\"
\"Second, examine its scientific accuracy...\"
\"Third, look at fulfilled prophecies...\"

**3. BUILD LOGICAL CONNECTIONS**
\"If X (proven above) and Y (also proven), then Z must be true.\"

**4. HANDLE OBJECTIONS**
\"Some argue [objection]. But this fails because [evidence].\"

**5. POWERFUL CONCLUSION**
\"Therefore, Islam's truth is established by [summary of proofs].\"

---

**EXTRACTION GUIDE:**

When you read the sources, look for:

**From Videos/Books, extract:**
- ✅ Quran verses they quote → cite directly
- ✅ Hadith they reference → cite with source
- ✅ Historical events they mention → present as facts
- ✅ Scientific points they make → explain directly
- ✅ Logical arguments they build → reconstruct them
- ✅ Classical scholars they quote → cite those scholars
- ✅ Analogies they use → use those analogies
- ✅ Objections they address → address them

**Transform this:**
\"In Source 1, the speaker talks about Quran 2:256...\"

**Into this:**
\"The Quran explicitly states in Surah 2:256: 'There is no compulsion in religion.' This establishes Islam's fundamental respect for free will.\"

---

**EXAMPLE RESPONSE FORMAT:**

\"Islam is true. Here's the irrefutable proof:

**PROOF 1 - DIVINE PRESERVATION**

The Quran has been perfectly preserved for 1,400 years. Unlike other religious texts which exist in countless contradictory versions, we have:
- The Birmingham Quran manuscript (568-645 CE) - identical to today's text
- The Topkapi manuscript (8th century) - identical to today's text  
- Chains of memorization spanning generations
- No meaningful variants across millions of copies

This level of preservation is statistically impossible without divine protection, as Allah promised in Surah 15:9: 'Indeed, We have sent down the message, and indeed, We will be its guardian.'

**PROOF 2 - IMPOSSIBLE KNOWLEDGE**

The Quran contains information impossible for 7th century Arabia:

1. Embryology: Surah 23:12-14 describes embryonic development in precise stages - alaqah (clinging thing), mudghah (chewed substance), bones, then flesh. This matches modern embryology exactly, discovered only with microscopes centuries later.

2. Cosmology: Surah 21:30 states the heavens and earth were joined then separated - a perfect description of the Big Bang, discovered in the 20th century.

3. Oceanography: Surah 25:53 describes barriers between seas with different properties - modern oceanography confirms distinct water masses that don't mix.

How did an illiterate merchant in 7th century Arabia know these facts?

**PROOF 3 - FULFILLED PROPHECY**

The Prophet Muhammad ﷺ made specific, verifiable predictions:

- He predicted the Roman victory over Persia within 3-9 years (Surah 30:2-4) - it happened exactly as stated
- He prophesied Islam would reach every household - now 1.8 billion Muslims worldwide
- He predicted specific future events documented in Sahih Bukhari that came true

**THE LOGICAL CONCLUSION:**

IF the Quran is:
1. Perfectly preserved (proven above)
2. Contains impossible knowledge (proven above)  
3. Makes accurate prophecies (proven above)

THEN the only rational explanation is divine origin.

Therefore, Islam is true.\"

---

**REMEMBER:**

The sources are your INFORMATION SOURCE.
The Quran, Hadith, history, science, logic are your EVIDENCE.

Extract evidence FROM sources.
Present evidence WITHOUT mentioning sources.

Available sources (extract the evidence within these):

"

/-- The tail of the system prompt after the interpolated context (`app.py` line 361). -/
def sys_part4 : String :=
  "

Now build your case using the actual Islamic evidence these sources contain."

/-- The `system_message` f-string of `app.py` lines 176-361: the fixed
instruction text with the assembled context interpolated at line 359
(`{full_context}` is its only interpolation). -/
def system_message (full_context : String) : String :=
  sys_part1 ++ sys_do_not_cite ++ sys_part2 ++ sys_what_not_to_cite
    ++ sys_part3a ++ sys_wrong_way_example ++ sys_part3b
    ++ full_context ++ sys_part4

/-- One entry of `st.session_state.messages` (`app.py` lines 150, 402). -/
structure ChatMessage where
  role : String
  content : String
  deriving DecidableEq, Repr

/-- Outcome of consuming the generation stream (`app.py` lines 364-383):
either every fragment arrived and the loop finished, or an exception was
raised after some fragments had been accumulated into `full_response`. -/
inductive StreamOutcome where
  | completed (fragments : List String)
  | failed_mid (fragments : List String) (error : String)
  deriving DecidableEq, Repr

/-- The chat-turn control flow of `app.py` lines 149-407, as a function of
the external calls: the user entry is appended first (line 150); if
retrieval yields nothing an error ends the turn (lines 165-167); a
completed stream appends the accumulated assistant text (line 402); an
exception mid-stream reaches the `except` branch (lines 404-407), which
shows an error and appends nothing, discarding the accumulated fragments.
The second component is the error banner shown, if any. -/
def run_turn (embed : String → Except String (List ℚ))
    (match_documents_hybrid : List ℚ → Nat → Except String (List CandidateMatch))
    (author_filter source_type_filter : String) (num_results : Nat)
    (stream : StreamOutcome) (messages : List ChatMessage) (prompt : String) :
    List ChatMessage × Option String :=
  let messages' := messages ++ [⟨"user", prompt⟩]
  let sources := search_and_retrieve embed match_documents_hybrid prompt
      author_filter source_type_filter num_results
  if sources = [] then
    (messages', some "No relevant sources found. Try different filters.")
  else
    match stream with
    | StreamOutcome.completed fragments =>
      (messages' ++ [⟨"assistant", String.join fragments⟩], none)
    | StreamOutcome.failed_mid _ error =>
      (messages', some ("❌ Error: " ++ error))

/-- A sample RPC hit used by witnesses and counterexamples. -/
def sample_candidate : CandidateMatch :=
  { parent_id := "doc-1"
    parent_title := "Proofs of Islam"
    parent_author := "Scholar A"
    parent_type := "video"
    parent_url := "http://example.com/1"
    parent_content := "Full content body"
    parent_metadata := "meta"
    chunk_content := "a matched chunk"
    similarity := 9 / 10 }

/-- A second sample RPC hit with a different parent document. -/
def sample_candidate_b : CandidateMatch :=
  { parent_id := "doc-2"
    parent_title := "History of the Quran"
    parent_author := "Scholar B"
    parent_type := "book"
    parent_url := "http://example.com/2"
    parent_content := "Other content"
    parent_metadata := "meta"
    chunk_content := "other chunk"
    similarity := 1 / 2 }

/-- An embedding service that always succeeds (used by witnesses). -/
def demo_embed : String → Except String (List ℚ) := fun _ => Except.ok []

/-- A search backend returning one hit (used by witnesses). -/
def demo_search : List ℚ → Nat → Except String (List CandidateMatch) :=
  fun _ _ => Except.ok [sample_candidate]

/-- A search backend returning both sample hits (used by witnesses). -/
def demo_search_two : List ℚ → Nat → Except String (List CandidateMatch) :=
  fun _ _ => Except.ok [sample_candidate, sample_candidate_b]

/-- A search backend defined only at candidate count 4 (used by the C4
witness: it agrees with `demo_search` at `match_count 2 = 4` and nowhere
else). -/
def demo_search_at_four : List ℚ → Nat → Except String (List CandidateMatch) :=
  fun _ k => if k = 4 then Except.ok [sample_candidate] else Except.error "not four"

/-- A three-word Source (over a two-word budget) used to refute the
truncation claim. -/
def three_word_source : Source :=
  { id := "doc-3"
    title := "T"
    content := "a b c"
    type := "video"
    author := "A"
    metadata := "meta"
    url := "u"
    matched_chunk := "a b"
    similarity := 1 }

/-- A Source whose content is itself a provenance-header-shaped line: it
injects a spurious ordinal into the assembled Context Block. -/
def injected_source : Source :=
  { id := "doc-4"
    title := "Real title"
    content := "=== SOURCE 7: Fake by X ==="
    type := "video"
    author := "A"
    metadata := "meta"
    url := "u"
    matched_chunk := "c"
    similarity := 1 }

/-- A Source whose title contains a newline followed by a header-shaped
line: a second way to inject a spurious ordinal. -/
def newline_title_source : Source :=
  { id := "doc-5"
    title := "Real\n=== SOURCE 9: Fake by X"
    content := "plain content"
    type := "video"
    author := "A"
    metadata := "meta"
    url := "u"
    matched_chunk := "c"
    similarity := 1 }

/-- A well-behaved Source (no newlines in title or author, no
header-shaped content line) used by the round-trip witness. -/
def clean_source : Source :=
  { id := "doc-6"
    title := "Tawhid"
    content := "hello world"
    type := "video"
    author := "Scholar A"
    metadata := "meta"
    url := "u"
    matched_chunk := "hello"
    similarity := 1 }

/-- The provenance header line of `context_part i s` (the characters before
its first newline, when title and author contain none). -/
def header_line (i : Nat) (s : Source) : List Char :=
  "=== SOURCE ".data ++ (toString i).data ++ ": ".data ++ s.title.data
    ++ " by ".data ++ s.author.data ++ " ===".data

/-! ### Lemmas about the filter/deduplication loop -/

theorem filter_loop_shape (af tf : String) (n : Nat) :
    ∀ (cs : List CandidateMatch) (acc : List Source) (seen : List String),
      ∃ t, filter_loop af tf n cs acc seen = acc ++ t
        ∧ t.Sublist (cs.map candidate_to_source) := by
  intro cs
  induction cs with
  | nil => exact fun acc seen => ⟨[], by simp [filter_loop], List.nil_sublist _⟩
  | cons r rest ih =>
    intro acc seen
    by_cases h1 : r.parent_id ∈ seen
    · obtain ⟨t, ht, hs⟩ := ih acc seen
      exact ⟨t, by rw [filter_loop, if_pos h1]; exact ht, hs.cons _⟩
    · by_cases h2 : af ≠ "All Sources" ∧ r.parent_author ≠ af
      · obtain ⟨t, ht, hs⟩ := ih acc seen
        exact ⟨t, by rw [filter_loop, if_neg h1, if_pos h2]; exact ht, hs.cons _⟩
      · by_cases h3 : tf ≠ "All Types" ∧ r.parent_type ≠ tf
        · obtain ⟨t, ht, hs⟩ := ih acc seen
          exact ⟨t, by rw [filter_loop, if_neg h1, if_neg h2, if_pos h3]; exact ht, hs.cons _⟩
        · by_cases h4 : n ≤ (acc ++ [candidate_to_source r]).length
          · refine ⟨[candidate_to_source r], ?_, (List.nil_sublist _).cons₂ _⟩
            rw [filter_loop, if_neg h1, if_neg h2, if_neg h3]
            simp only [if_pos h4]
          · obtain ⟨t, ht, hs⟩ := ih (acc ++ [candidate_to_source r]) (seen ++ [r.parent_id])
            refine ⟨candidate_to_source r :: t, ?_, hs.cons₂ _⟩
            rw [filter_loop, if_neg h1, if_neg h2, if_neg h3]
            simp only [if_neg h4]
            rw [ht, List.append_assoc]
            rfl

theorem filter_loop_nodup (af tf : String) (n : Nat) :
    ∀ (cs : List CandidateMatch) (acc : List Source) (seen : List String),
      (acc.map Source.id).Nodup → (∀ s ∈ acc, s.id ∈ seen) →
      ((filter_loop af tf n cs acc seen).map Source.id).Nodup := by
  intro cs
  induction cs with
  | nil => intro acc seen hnd _; simpa [filter_loop] using hnd
  | cons r rest ih =>
    intro acc seen hnd hseen
    by_cases h1 : r.parent_id ∈ seen
    · rw [filter_loop, if_pos h1]; exact ih acc seen hnd hseen
    · by_cases h2 : af ≠ "All Sources" ∧ r.parent_author ≠ af
      · rw [filter_loop, if_neg h1, if_pos h2]; exact ih acc seen hnd hseen
      · by_cases h3 : tf ≠ "All Types" ∧ r.parent_type ≠ tf
        · rw [filter_loop, if_neg h1, if_neg h2, if_pos h3]; exact ih acc seen hnd hseen
        · have hnotin : r.parent_id ∉ acc.map Source.id := by
            intro hmem
            obtain ⟨s, hsmem, hsid⟩ := List.mem_map.mp hmem
            exact h1 (hsid ▸ hseen s hsmem)
          have hnd' : ((acc ++ [candidate_to_source r]).map Source.id).Nodup := by
            rw [List.map_append]
            rw [List.nodup_append]
            refine ⟨hnd, List.nodup_singleton _, ?_⟩
            intro x hx hx'
            simp only [List.map_cons, List.map_nil, List.mem_singleton] at hx'
            subst hx'
            exact hnotin hx
          by_cases h4 : n ≤ (acc ++ [candidate_to_source r]).length
          · rw [filter_loop, if_neg h1, if_neg h2, if_neg h3]
            simp only [if_pos h4]
            exact hnd'
          · rw [filter_loop, if_neg h1, if_neg h2, if_neg h3]
            simp only [if_neg h4]
            refine ih _ _ hnd' ?_
            intro s hs
            rcases List.mem_append.mp hs with hs | hs
            · exact List.mem_append.mpr (Or.inl (hseen s hs))
            · simp only [List.mem_singleton] at hs
              subst hs
              exact List.mem_append.mpr (Or.inr (by simp [candidate_to_source]))

theorem filter_loop_length_le (af tf : String) (n : Nat) :
    ∀ (cs : List CandidateMatch) (acc : List Source) (seen : List String),
      acc.length < n → (filter_loop af tf n cs acc seen).length ≤ n := by
  intro cs
  induction cs with
  | nil => intro acc seen h; rw [filter_loop]; omega
  | cons r rest ih =>
    intro acc seen h
    by_cases h1 : r.parent_id ∈ seen
    · rw [filter_loop, if_pos h1]; exact ih acc seen h
    · by_cases h2 : af ≠ "All Sources" ∧ r.parent_author ≠ af
      · rw [filter_loop, if_neg h1, if_pos h2]; exact ih acc seen h
      · by_cases h3 : tf ≠ "All Types" ∧ r.parent_type ≠ tf
        · rw [filter_loop, if_neg h1, if_neg h2, if_pos h3]; exact ih acc seen h
        · by_cases h4 : n ≤ (acc ++ [candidate_to_source r]).length
          · rw [filter_loop, if_neg h1, if_neg h2, if_neg h3]
            simp only [if_pos h4]
            simp only [List.length_append, List.length_singleton]
            omega
          · rw [filter_loop, if_neg h1, if_neg h2, if_neg h3]
            simp only [if_neg h4]
            refine ih _ _ ?_
            simp only [List.length_append, List.length_singleton] at h4 ⊢
            omega

theorem filter_loop_short_circuit (af tf : String) (n : Nat) :
    ∀ (cs : List CandidateMatch) (acc : List Source) (seen : List String),
      acc.length < n → n ≤ (filter_loop af tf n cs acc seen).length →
      ∀ cs₂, filter_loop af tf n (cs ++ cs₂) acc seen = filter_loop af tf n cs acc seen := by
  intro cs
  induction cs with
  | nil =>
    intro acc seen hlt hge cs₂
    rw [filter_loop] at hge
    omega
  | cons r rest ih =>
    intro acc seen hlt hge cs₂
    by_cases h1 : r.parent_id ∈ seen
    · rw [filter_loop, if_pos h1] at hge ⊢
      rw [List.cons_append, filter_loop, if_pos h1]
      exact ih acc seen hlt hge cs₂
    · by_cases h2 : af ≠ "All Sources" ∧ r.parent_author ≠ af
      · rw [filter_loop, if_neg h1, if_pos h2] at hge ⊢
        rw [List.cons_append, filter_loop, if_neg h1, if_pos h2]
        exact ih acc seen hlt hge cs₂
      · by_cases h3 : tf ≠ "All Types" ∧ r.parent_type ≠ tf
        · rw [filter_loop, if_neg h1, if_neg h2, if_pos h3] at hge ⊢
          rw [List.cons_append, filter_loop, if_neg h1, if_neg h2, if_pos h3]
          exact ih acc seen hlt hge cs₂
        · by_cases h4 : n ≤ (acc ++ [candidate_to_source r]).length
          · rw [filter_loop, if_neg h1, if_neg h2, if_neg h3]
            rw [List.cons_append, filter_loop, if_neg h1, if_neg h2, if_neg h3]
            simp only [if_pos h4]
          · rw [filter_loop, if_neg h1, if_neg h2, if_neg h3] at hge ⊢
            simp only [if_neg h4] at hge ⊢
            rw [List.cons_append, filter_loop, if_neg h1, if_neg h2, if_neg h3]
            simp only [if_neg h4]
            refine ih _ _ ?_ hge cs₂
            simp only [List.length_append, List.length_singleton] at h4 ⊢
            omega

theorem filter_loop_all_filtered (af tf : String) (n : Nat) :
    ∀ (cs : List CandidateMatch) (acc : List Source) (seen : List String),
      (∀ c ∈ cs, (af ≠ "All Sources" ∧ c.parent_author ≠ af)
        ∨ (tf ≠ "All Types" ∧ c.parent_type ≠ tf)) →
      filter_loop af tf n cs acc seen = acc := by
  intro cs
  induction cs with
  | nil => intro acc seen _; rw [filter_loop]
  | cons r rest ih =>
    intro acc seen hall
    have hr := hall r (List.mem_cons_self r rest)
    have hrest : ∀ c ∈ rest, (af ≠ "All Sources" ∧ c.parent_author ≠ af)
        ∨ (tf ≠ "All Types" ∧ c.parent_type ≠ tf) :=
      fun c hc => hall c (List.mem_cons_of_mem r hc)
    by_cases h1 : r.parent_id ∈ seen
    · rw [filter_loop, if_pos h1]; exact ih acc seen hrest
    · rcases hr with hr | hr
      · rw [filter_loop, if_neg h1, if_pos hr]; exact ih acc seen hrest
      · by_cases h2 : af ≠ "All Sources" ∧ r.parent_author ≠ af
        · rw [filter_loop, if_neg h1, if_pos h2]; exact ih acc seen hrest
        · rw [filter_loop, if_neg h1, if_neg h2, if_pos hr]; exact ih acc seen hrest

/-! ### Claims about the retrieval pipeline -/

/-- C1: for every candidate list returned by the hybrid search and every
author/source-type facet setting, the list of Sources returned by
`search_and_retrieve` contains no two elements with the same `id` (each
underlying parent document appears at most once in one response). -/
theorem C1_no_duplicate_ids (embed : String → Except String (List ℚ))
    (mdh : List ℚ → Nat → Except String (List CandidateMatch))
    (q af tf : String) (n : Nat) :
    ((search_and_retrieve embed mdh q af tf n).map Source.id).Nodup := by
  rcases hem : embed q with e | v
  · simp [search_and_retrieve, hem]
  · rcases hs : mdh v (match_count n) with e | data
    · simp [search_and_retrieve, hem, hs]
    · by_cases hd : data = []
      · simp [search_and_retrieve, hem, hs, hd]
      · simp only [search_and_retrieve, hem, hs, if_neg hd]
        exact filter_loop_nodup af tf n data [] [] (by simp) (by simp)

/-- C2: for every candidate list and every facet setting, the sequence of
Sources returned by `search_and_retrieve` is a subsequence of the candidate
sequence in its delivered rank order: filtering and deduplication only
remove elements, never reordering two survivors. -/
theorem C2_preserves_rank_order (embed : String → Except String (List ℚ))
    (mdh : List ℚ → Nat → Except String (List CandidateMatch))
    (q af tf : String) (n : Nat) (v : List ℚ) (data : List CandidateMatch)
    (hem : embed q = Except.ok v)
    (hs : mdh v (match_count n) = Except.ok data) :
    (search_and_retrieve embed mdh q af tf n).Sublist (data.map candidate_to_source) := by
  by_cases hd : data = []
  · simp [search_and_retrieve, hem, hs, hd]
  · simp only [search_and_retrieve, hem, hs, if_neg hd]
    obtain ⟨t, ht, hsub⟩ := filter_loop_shape af tf n data [] []
    rw [ht]
    simpa using hsub

/-- Witness for C2 at a concrete two-candidate backend. -/
theorem C2_preserves_rank_order_witness :
    (search_and_retrieve demo_embed demo_search_two "q" "All Sources" "All Types" 1).Sublist
      ([sample_candidate, sample_candidate_b].map candidate_to_source) :=
  C2_preserves_rank_order demo_embed demo_search_two "q" "All Sources" "All Types" 1
    [] [sample_candidate, sample_candidate_b] rfl rfl

/-- C3 counterexample: with requested count 0 (and a passing candidate) the
returned list has length 1, exceeding `num_results`, because the loop's
break test `len(filtered_docs) >= num_results` only runs after an append. -/
theorem C3_zero_count_counterexample :
    (search_and_retrieve demo_embed demo_search "q" "All Sources" "All Types" 0).length = 1
    ∧ ¬ ((search_and_retrieve demo_embed demo_search "q" "All Sources" "All Types" 0).length ≤ 0) := by
  constructor
  · rfl
  · decide

/-- C3 as amended: for every requested count `num_results ≥ 1` the returned
list has length at most `num_results`, and iteration short-circuits — once
the accepted Sources reach `num_results`, any candidates beyond that point
are never examined (appending them changes nothing). -/
theorem C3_length_le_and_short_circuit (af tf : String) (n : Nat) (hn : 1 ≤ n) :
    (∀ (embed : String → Except String (List ℚ))
      (mdh : List ℚ → Nat → Except String (List CandidateMatch)) (q : String),
      (search_and_retrieve embed mdh q af tf n).length ≤ n)
    ∧ (∀ (cs cs₂ : List CandidateMatch), n ≤ (filter_loop af tf n cs [] []).length →
        filter_loop af tf n (cs ++ cs₂) [] [] = filter_loop af tf n cs [] []) := by
  constructor
  · intro embed mdh q
    rcases hem : embed q with e | v
    · simp [search_and_retrieve, hem]
    · rcases hs : mdh v (match_count n) with e | data
      · simp [search_and_retrieve, hem, hs]
      · by_cases hd : data = []
        · simp [search_and_retrieve, hem, hs, hd]
        · simp only [search_and_retrieve, hem, hs, if_neg hd]
          exact filter_loop_length_le af tf n data [] [] (by simpa using hn)
  · intro cs cs₂ h
    exact filter_loop_short_circuit af tf n cs [] [] (by simpa using hn) h cs₂

/-- Witness for the amended C3 at concrete inputs. -/
theorem C3_length_le_witness :
    (search_and_retrieve demo_embed demo_search_two "q" "All Sources" "All Types" 1).length ≤ 1 :=
  (C3_length_le_and_short_circuit "All Sources" "All Types" 1 (by decide)).1
    demo_embed demo_search_two "q"

/-- C4: the hybrid vector-search call requests exactly `2 × num_results`
candidates: the RPC parameter is `match_count num_results = 2 * num_results`,
and the result of `search_and_retrieve` depends on the backend only through
its answer at that count (two backends agreeing at `2 * num_results` give
identical results). -/
theorem C4_overfetch_double (embed : String → Except String (List ℚ))
    (s₁ s₂ : List ℚ → Nat → Except String (List CandidateMatch))
    (q af tf : String) (n : Nat)
    (h : ∀ v, s₁ v (2 * n) = s₂ v (2 * n)) :
    match_count n = 2 * n
    ∧ search_and_retrieve embed s₁ q af tf n = search_and_retrieve embed s₂ q af tf n := by
  have hmc : match_count n = 2 * n := Nat.mul_comm n 2
  refine ⟨hmc, ?_⟩
  rcases hem : embed q with e | v
  · simp [search_and_retrieve, hem]
  · simp only [search_and_retrieve, hem, hmc, h v]

/-- Witness for C4: `demo_search_at_four` is defined (as a success) only at
candidate count 4 = 2 × 2, yet the pipeline result is unchanged. -/
theorem C4_overfetch_double_witness :
    match_count 2 = 2 * 2
    ∧ search_and_retrieve demo_embed demo_search "q" "All Sources" "All Types" 2
      = search_and_retrieve demo_embed demo_search_at_four "q" "All Sources" "All Types" 2 :=
  C4_overfetch_double demo_embed demo_search demo_search_at_four "q" "All Sources" "All Types" 2
    (fun _ => rfl)

/-- C5: in hybrid mode, if the search returns an empty candidate list, or
every candidate is removed by the facet filters, `search_and_retrieve`
returns `[]` — no exception (the function is total), no fabricated Sources,
no fallback to unfiltered candidates.  The hypothesis covers the empty list
vacuously. -/
theorem C5_empty_stays_empty (embed : String → Except String (List ℚ))
    (mdh : List ℚ → Nat → Except String (List CandidateMatch))
    (q af tf : String) (n : Nat) (v : List ℚ) (data : List CandidateMatch)
    (hem : embed q = Except.ok v)
    (hs : mdh v (match_count n) = Except.ok data)
    (hall : ∀ c ∈ data, (af ≠ "All Sources" ∧ c.parent_author ≠ af)
        ∨ (tf ≠ "All Types" ∧ c.parent_type ≠ tf)) :
    search_and_retrieve embed mdh q af tf n = [] := by
  by_cases hd : data = []
  · simp [search_and_retrieve, hem, hs, hd]
  · simp only [search_and_retrieve, hem, hs, if_neg hd]
    exact filter_loop_all_filtered af tf n data [] [] hall

/-- Witness for C5: a candidate by Scholar A is removed by the author facet
"Scholar B", and the response is empty. -/
theorem C5_empty_stays_empty_witness :
    search_and_retrieve demo_embed demo_search "q" "Scholar B" "All Types" 3 = [] :=
  C5_empty_stays_empty demo_embed demo_search "q" "Scholar B" "All Types" 3
    [] [sample_candidate] rfl rfl (by decide)

/-- C10 (implicit): `search_and_retrieve` is total at its public interface —
an embedding-service failure, a search-backend failure, and a genuine empty
result all yield the same `[]`, indistinguishable to the caller; no typed
error propagates (the return type is a plain list). -/
theorem C10_failures_indistinguishable (err err₂ : String)
    (mdh : List ℚ → Nat → Except String (List CandidateMatch))
    (q af tf : String) (n : Nat) (v : List ℚ) :
    search_and_retrieve (fun _ => Except.error err) mdh q af tf n = []
    ∧ search_and_retrieve (fun _ => Except.ok v) (fun _ _ => Except.error err₂) q af tf n = []
    ∧ search_and_retrieve (fun _ => Except.ok v) (fun _ _ => Except.ok []) q af tf n = [] :=
  ⟨rfl, rfl, rfl⟩

/-- C9: if the generation stream fails mid-stream after some fragments were
accumulated, the partial text is discarded — the turn's history gains only
the user entry (no assistant entry, so the assistant-role entries are
exactly those already present) and an error message ends the turn; the
assistant entry (the joined fragments) is appended only when the stream
completes. -/
theorem C9_partial_text_discarded (embed : String → Except String (List ℚ))
    (mdh : List ℚ → Nat → Except String (List CandidateMatch))
    (af tf : String) (n : Nat) (messages : List ChatMessage) (prompt : String)
    (fragments : List String) (error : String)
    (hsrc : search_and_retrieve embed mdh prompt af tf n ≠ []) :
    run_turn embed mdh af tf n (StreamOutcome.failed_mid fragments error) messages prompt
      = (messages ++ [⟨"user", prompt⟩], some ("❌ Error: " ++ error))
    ∧ (run_turn embed mdh af tf n (StreamOutcome.failed_mid fragments error) messages prompt).1.filter
        (fun m => m.role == "assistant")
      = messages.filter (fun m => m.role == "assistant")
    ∧ run_turn embed mdh af tf n (StreamOutcome.completed fragments) messages prompt
      = (messages ++ [⟨"user", prompt⟩, ⟨"assistant", String.join fragments⟩], none) := by
  have hfail : run_turn embed mdh af tf n (StreamOutcome.failed_mid fragments error) messages prompt
      = (messages ++ [⟨"user", prompt⟩], some ("❌ Error: " ++ error)) := by
    simp only [run_turn, if_neg hsrc]
  refine ⟨hfail, ?_, ?_⟩
  · rw [hfail]
    simp [List.filter_append]
  · simp only [run_turn, if_neg hsrc]
    simp

/-- Witness for C9 at a concrete backend, history and failing stream. -/
theorem C9_partial_text_discarded_witness :
    run_turn demo_embed demo_search "All Sources" "All Types" 1
      (StreamOutcome.failed_mid ["The Quran "] "rate limited") [] "q"
      = ([⟨"user", "q"⟩], some ("❌ Error: " ++ "rate limited"))
    ∧ (run_turn demo_embed demo_search "All Sources" "All Types" 1
        (StreamOutcome.failed_mid ["The Quran "] "rate limited") [] "q").1.filter
        (fun m => m.role == "assistant")
      = List.filter (fun m => m.role == "assistant") []
    ∧ run_turn demo_embed demo_search "All Sources" "All Types" 1
        (StreamOutcome.completed ["The Quran "]) [] "q"
      = ([⟨"user", "q"⟩, ⟨"assistant", String.join ["The Quran "]⟩], none) := by
  have h := C9_partial_text_discarded demo_embed demo_search "All Sources" "All Types" 1
    [] "q" ["The Quran "] "rate limited" (by decide)
  simpa using h

/-! ### Decimal digits of a Nat as printed by toString -/

theorem digitChar_isDigit (d : Nat) (h : d < 10) : (Nat.digitChar d).isDigit = true := by
  interval_cases d <;> decide

theorem digitChar_val (d : Nat) (h : d < 10) : (Nat.digitChar d).toNat - '0'.toNat = d := by
  interval_cases d <;> decide

theorem nat_digits_ne_nil (n : Nat) : nat_digits n ≠ [] := by
  rw [nat_digits]
  split_ifs <;> simp

theorem nat_digits_all_digit (n : Nat) : ∀ c ∈ nat_digits n, c.isDigit = true := by
  induction n using Nat.strong_induction_on with
  | _ n ih =>
    rw [nat_digits]
    split_ifs with h
    · intro c hc
      simp only [List.mem_singleton] at hc
      subst hc
      exact digitChar_isDigit n h
    · intro c hc
      rcases List.mem_append.mp hc with hc | hc
      · exact ih (n / 10) (Nat.div_lt_self (by omega) (by omega)) c hc
      · simp only [List.mem_singleton] at hc
        subst hc
        exact digitChar_isDigit _ (Nat.mod_lt _ (by omega))

theorem toDigitsCore_eq_nat_digits :
    ∀ (fuel n : Nat) (ds : List Char), n ≤ fuel →
      Nat.toDigitsCore 10 (fuel + 1) n ds = nat_digits n ++ ds := by
  intro fuel
  induction fuel with
  | zero =>
    intro n ds h
    have hn : n = 0 := by omega
    subst hn
    rw [Nat.toDigitsCore]
    norm_num
    rw [nat_digits]
    norm_num
  | succ fuel ih =>
    intro n ds h
    rw [Nat.toDigitsCore]
    by_cases h10 : n < 10
    · have hdiv : n / 10 = 0 := Nat.div_eq_of_lt h10
      rw [if_pos hdiv, nat_digits]
      rw [dif_pos h10]
      rw [Nat.mod_eq_of_lt h10]
      rfl
    · have hdiv : n / 10 ≠ 0 := by
        intro hz
        exact h10 (by omega)
      have hlt : n / 10 ≤ fuel := by
        have := Nat.div_lt_self (n := n) (by omega) (by omega : 1 < 10)
        omega
      have hnd : nat_digits n = nat_digits (n / 10) ++ [Nat.digitChar (n % 10)] := by
        rw [nat_digits]
        rw [dif_neg h10]
      rw [if_neg hdiv, ih (n / 10) _ hlt, hnd]
      simp [List.append_assoc]

theorem toString_nat_data (n : Nat) : (toString n).data = nat_digits n := by
  show (Nat.repr n).data = nat_digits n
  unfold Nat.repr Nat.toDigits
  rw [toDigitsCore_eq_nat_digits n n [] (Nat.le_refl n)]
  simp [List.asString]

theorem decode_digits_aux (n : Nat) :
    ∀ a : Nat, List.foldl (fun a c => 10 * a + (c.toNat - '0'.toNat)) a (nat_digits n)
      = a * 10 ^ (nat_digits n).length + n := by
  induction n using Nat.strong_induction_on with
  | _ n ih =>
    intro a
    rw [nat_digits]
    split_ifs with h
    · simp only [List.foldl_cons, List.foldl_nil, List.length_singleton]
      rw [digitChar_val n h]
      ring
    · rw [List.foldl_append]
      rw [ih (n / 10) (Nat.div_lt_self (by omega) (by omega)) a]
      simp only [List.foldl_cons, List.foldl_nil, List.length_append, List.length_singleton]
      rw [digitChar_val _ (Nat.mod_lt _ (by omega))]
      have hm : 10 * (a * 10 ^ (nat_digits (n / 10)).length + n / 10) + n % 10
          = a * 10 ^ ((nat_digits (n / 10)).length + 1) + (10 * (n / 10) + n % 10) := by
        ring
      rw [hm, Nat.div_add_mod n 10]

theorem decode_digits_toString (n : Nat) : decode_digits (toString n).data = n := by
  rw [toString_nat_data]
  unfold decode_digits
  rw [decode_digits_aux n 0]
  simp

theorem not_digit_not_mem_toString (c : Char) (hc : c.isDigit = false) (n : Nat) :
    c ∉ (toString n).data := by
  rw [toString_nat_data]
  intro hmem
  have := nat_digits_all_digit n c hmem
  rw [this] at hc
  exact Bool.noConfusion hc

/-! ### Lines of a character list -/

theorem split_lines_ne_nil (cs : List Char) : split_lines cs ≠ [] := by
  induction cs with
  | nil => simp [split_lines]
  | cons c rest ih =>
    rw [split_lines]
    split_ifs
    · simp
    · rcases h : split_lines rest with _ | ⟨l, ls⟩
      · simp
      · simp

theorem split_lines_append (a b : List Char) :
    split_lines (a ++ '\n' :: b) = split_lines a ++ split_lines b := by
  induction a with
  | nil => simp [split_lines]
  | cons c a ih =>
    by_cases hc : c = '\n'
    · subst hc
      rw [List.cons_append, split_lines, if_pos rfl, ih]
      rw [split_lines, if_pos rfl]
      simp
    · rcases h : split_lines a with _ | ⟨l, ls⟩
      · exact absurd h (split_lines_ne_nil a)
      · rw [List.cons_append, split_lines, if_neg hc, ih, h]
        rw [split_lines, if_neg hc, h]
        simp

theorem split_lines_single (a : List Char) (h : '\n' ∉ a) : split_lines a = [a] := by
  induction a with
  | nil => simp [split_lines]
  | cons c a ih =>
    have hc : c ≠ '\n' := fun hh => h (hh ▸ List.mem_cons_self c a)
    have ha : '\n' ∉ a := fun hh => h (List.mem_cons_of_mem _ hh)
    rw [split_lines, if_neg hc, ih ha]

/-! ### The provenance-header parser on genuine headers -/

theorem takeWhile_all_append (p : Char → Bool) (xs : List Char) (y : Char) (ys : List Char)
    (hxs : ∀ c ∈ xs, p c = true) (hy : p y = false) :
    (xs ++ y :: ys).takeWhile p = xs := by
  induction xs with
  | nil => simp [List.takeWhile_cons, hy]
  | cons x xs ih =>
    have hx : p x = true := hxs x (List.mem_cons_self x xs)
    rw [List.cons_append, List.takeWhile_cons, if_pos hx,
      ih (fun c hc => hxs c (List.mem_cons_of_mem _ hc))]

theorem header_index_nil : header_index [] = none := by decide

theorem header_index_marker_digits (i : Nat) (rest : List Char) :
    header_index (header_marker ++ ((toString i).data ++ ':' :: rest)) = some i := by
  unfold header_index
  rw [if_pos (List.prefix_append _ _)]
  rw [List.drop_left]
  rw [takeWhile_all_append Char.isDigit (toString i).data ':' rest
    (by
      intro c hc
      rw [toString_nat_data] at hc
      exact nat_digits_all_digit i c hc)
    (by decide)]
  rw [if_neg (by
    rw [toString_nat_data]
    exact nat_digits_ne_nil i)]
  rw [decode_digits_toString]

theorem header_index_header_line (i : Nat) (s : Source) :
    header_index (header_line i s) = some i := by
  have hsh : header_line i s
      = header_marker ++ ((toString i).data
        ++ ':' :: (' ' :: (s.title.data ++ (" by ".data ++ (s.author.data ++ " ===".data))))) := by
    have hc : ": ".data = ':' :: [' '] := by decide
    simp [header_line, header_marker, hc, List.append_assoc]
  rw [hsh]
  exact header_index_marker_digits i _

theorem newline_not_mem_header_line (i : Nat) (s : Source)
    (ht : '\n' ∉ s.title.data) (ha : '\n' ∉ s.author.data) :
    '\n' ∉ header_line i s := by
  intro hmem
  simp only [header_line, List.mem_append] at hmem
  rcases hmem with ((((((hm | hm) | hm) | hm) | hm) | hm) | hm)
  · exact absurd hm (by decide)
  · exact not_digit_not_mem_toString '\n' (by decide) i hm
  · exact absurd hm (by decide)
  · exact ht hm
  · exact absurd hm (by decide)
  · exact ha hm
  · exact absurd hm (by decide)

/-! ### Parsing the assembled Context Block -/

theorem context_part_data (i : Nat) (s : Source) :
    (context_part i s).data
      = header_line i s ++ '\n' :: ('\n' :: (s.content.data ++ '\n' :: ('\n' :: []))) := by
  have h1 : " ===\n\n".data = " ===".data ++ '\n' :: ['\n'] := by decide
  have h2 : "\n\n".data = '\n' :: ['\n'] := by decide
  simp [context_part, header_line, String.data_append, h1, h2, List.append_assoc]

theorem filterMap_split_lines_context_part (k : Nat) (s : Source) (hclean : source_clean s) :
    (split_lines (context_part k s).data).filterMap header_index = [k] := by
  obtain ⟨ht, ha, hcont⟩ := hclean
  rw [context_part_data]
  rw [split_lines_append (header_line k s) _]
  rw [split_lines_single (header_line k s) (newline_not_mem_header_line k s ht ha)]
  rw [split_lines, if_pos rfl]
  rw [split_lines_append s.content.data ('\n' :: [])]
  rw [split_lines, if_pos rfl]
  have hmap : List.filterMap header_index (split_lines s.content.data) = [] :=
    List.filterMap_eq_nil_iff.mpr hcont
  simp [List.filterMap_cons, List.filterMap_append, header_index_header_line,
    header_index_nil, hmap, split_lines]

theorem intercalate_go_data (sep : String) :
    ∀ (as : List String) (acc : String),
      (String.intercalate.go acc sep as).data
        = acc.data ++ (as.map (fun a => sep.data ++ a.data)).flatten := by
  intro as
  induction as with
  | nil => intro acc; simp [String.intercalate.go]
  | cons a as ih =>
    intro acc
    rw [String.intercalate.go, ih]
    simp [String.data_append, List.append_assoc]

theorem intercalate_data (sep : String) (a : String) (as : List String) :
    (String.intercalate sep (a :: as)).data
      = a.data ++ (as.map (fun x => sep.data ++ x.data)).flatten := by
  rw [String.intercalate]
  exact intercalate_go_data sep as a

theorem parse_context_parts_from :
    ∀ (sources : List Source) (k : Nat),
      (∀ s ∈ sources, source_clean s) →
      (split_lines (String.intercalate "\n" (context_parts_from k sources)).data).filterMap
        header_index = List.range' k sources.length := by
  intro sources
  induction sources with
  | nil =>
    intro k _
    simp [context_parts_from, String.intercalate, split_lines, header_index_nil]
  | cons s rest ih =>
    intro k hclean
    have hs := hclean s (List.mem_cons_self s rest)
    have hrest : ∀ x ∈ rest, source_clean x :=
      fun x hx => hclean x (List.mem_cons_of_mem _ hx)
    rw [context_parts_from, intercalate_data]
    cases rest with
    | nil =>
      simp only [context_parts_from, List.map_nil, List.flatten_nil, List.append_nil]
      rw [filterMap_split_lines_context_part k s hs]
      rfl
    | cons s2 rest2 =>
      have hjoin : ((context_parts_from (k + 1) (s2 :: rest2)).map
            (fun x => "\n".data ++ x.data)).flatten
          = '\n' :: (String.intercalate "\n" (context_parts_from (k + 1) (s2 :: rest2))).data := by
        rw [context_parts_from, intercalate_data]
        simp
      rw [hjoin]
      rw [split_lines_append]
      rw [List.filterMap_append]
      rw [filterMap_split_lines_context_part k s hs]
      rw [ih (k + 1) hrest]
      simp [List.range'_succ]

/-- C7 as amended: for every list of Sources whose titles and authors
contain no newline and whose content lines do not themselves parse as
provenance headers, assembling the Context Block and parsing the headers
back recovers exactly the ordinal indices 1..N in the Sources' order. -/
theorem C7_roundtrip_indices (sources : List Source)
    (h : ∀ s ∈ sources, source_clean s) :
    parse_source_indices (full_context sources) = List.range' 1 sources.length := by
  unfold parse_source_indices full_context context_parts
  exact parse_context_parts_from sources 1 h

/-- Witness for the amended C7 with one well-behaved Source. -/
theorem C7_roundtrip_indices_witness :
    parse_source_indices (full_context [clean_source]) = List.range' 1 1 :=
  C7_roundtrip_indices [clean_source] (by
    intro s hs
    rw [List.mem_singleton] at hs
    subst hs
    exact ⟨by decide, by decide, by decide⟩)

/-- C7 counterexample: the claim fails as stated — a Source whose content
(or title) contains a header-shaped line injects a spurious ordinal, so
parsing a 1-Source block recovers two indices instead of exactly 1..1. -/
theorem C7_header_injection_counterexample :
    (parse_source_indices (full_context [injected_source]) = [1, 7]
      ∧ parse_source_indices (full_context [injected_source]) ≠ List.range' 1 1)
    ∧ (parse_source_indices (full_context [newline_title_source]) = [1, 9]
      ∧ parse_source_indices (full_context [newline_title_source]) ≠ List.range' 1 1) := by
  decide

/-! ### Truncation claims about the Context Assembler -/

theorem count_occur_zero_of_not_mem (pat s : List Char) (c : Char)
    (hc : c ∈ pat) (hs : c ∉ s) : count_occur pat s = 0 := by
  unfold count_occur
  rw [List.length_eq_zero, List.filter_eq_nil_iff]
  intro i _
  simp only [decide_eq_true_eq]
  intro hpre
  exact hs (List.drop_subset _ _ (hpre.subset hc))

theorem bracket_not_mem_context_part (i : Nat) (source : Source)
    (ht : '[' ∉ source.title.data) (ha : '[' ∉ source.author.data)
    (hc : '[' ∉ source.content.data) :
    '[' ∉ (context_part i source).data := by
  intro hmem
  rw [context_part_data] at hmem
  rcases List.mem_append.mp hmem with hm | hm
  · simp only [header_line, List.mem_append] at hm
    rcases hm with ((((((hm | hm) | hm) | hm) | hm) | hm) | hm)
    · exact absurd hm (by decide)
    · exact not_digit_not_mem_toString '[' (by decide) i hm
    · exact absurd hm (by decide)
    · exact ht hm
    · exact absurd hm (by decide)
    · exact ha hm
    · exact absurd hm (by decide)
  · rcases hm with _ | ⟨_, hm⟩
    rcases hm with _ | ⟨_, hm⟩
    rcases List.mem_append.mp hm with hm | hm
    · exact hc hm
    · rcases hm with _ | ⟨_, hm⟩
      rcases hm with _ | ⟨_, hm⟩
      cases hm

/-- C6 as amended: the Context Assembler of this iteration applies no
truncation at all — for every ordinal and Source the rendered block embeds
the content unchanged (`header ++ content ++ "\n\n"`), and (whenever the
title, author and content contain no `[` character) the truncation marker
occurs nowhere in the rendered block, regardless of any word budget. -/
theorem C6_no_truncation (i : Nat) (source : Source)
    (ht : '[' ∉ source.title.data) (ha : '[' ∉ source.author.data)
    (hc : '[' ∉ source.content.data) :
    context_part i source = context_header i source ++ source.content ++ "\n\n"
    ∧ count_occur truncation_marker.data (context_part i source).data = 0 := by
  constructor
  · apply String.ext
    simp [context_part, context_header, String.data_append, List.append_assoc]
  · exact count_occur_zero_of_not_mem _ _ '[' (by decide)
      (bracket_not_mem_context_part i source ht ha hc)

/-- Witness for the amended C6 at a concrete Source. -/
theorem C6_no_truncation_witness :
    context_part 1 three_word_source
      = context_header 1 three_word_source ++ three_word_source.content ++ "\n\n"
    ∧ count_occur truncation_marker.data (context_part 1 three_word_source).data = 0 :=
  C6_no_truncation 1 three_word_source (by decide) (by decide) (by decide)

/-- C6 counterexample: the claim fails as stated — a Source three words
long against a two-word budget is rendered without any truncation marker
(the marker occurs 0 times, not exactly once), because `src/app.py`
contains no truncation logic. -/
theorem C6_truncation_counterexample : ¬ truncation_claim 2 1 three_word_source := by
  intro h
  have h1 := h.1 (by decide)
  have h0 : count_occur truncation_marker.data (context_part 1 three_word_source).data = 0 :=
    count_occur_zero_of_not_mem _ _ '[' (by decide)
      (bracket_not_mem_context_part 1 three_word_source (by decide) (by decide) (by decide))
  rw [h0] at h1
  cases h1

/-! ### Claims about the Prompt Composer -/

set_option maxRecDepth 8192 in
/-- C8 counterexample: the claim fails as stated — the composed instruction
does not define `[Source N]` as a citation convention the generator must
use.  On the contrary: the template's WHAT NOT TO CITE list carries a
`[Source 1]` occurrence under a forbidding ❌, its EXAMPLE - WRONG WAY
section displays a `[Source 1]` citation as the wrong way to answer, and
both come after the sentence "DO NOT cite the sources themselves."; all of
this text is embedded verbatim in every composed system message. -/
theorem C8_citation_format_forbidden_counterexample :
    sys_do_not_cite = "DO NOT cite the sources themselves."
    ∧ "**WHAT NOT TO CITE:**".data <+: sys_what_not_to_cite.data
    ∧ count_occur "[Source 1]".data sys_what_not_to_cite.data = 1
    ∧ count_occur "❌ \"[Source 1]...\"".data sys_what_not_to_cite.data = 1
    ∧ "**EXAMPLE - WRONG WAY:**".data <+: sys_wrong_way_example.data
    ∧ count_occur "[Source 1]".data sys_wrong_way_example.data = 1
    ∧ sys_do_not_cite.data <:+: (system_message "").data
    ∧ sys_what_not_to_cite.data <:+: (system_message "").data
    ∧ sys_wrong_way_example.data <:+: (system_message "").data := by
  refine ⟨rfl, by decide, by decide, by decide, by decide, by decide,
    ⟨sys_part1.data,
      (sys_part2 ++ sys_what_not_to_cite ++ sys_part3a ++ sys_wrong_way_example
        ++ sys_part3b).data ++ "".data ++ sys_part4.data, ?_⟩,
    ⟨(sys_part1 ++ sys_do_not_cite ++ sys_part2).data,
      (sys_part3a ++ sys_wrong_way_example ++ sys_part3b).data ++ "".data ++ sys_part4.data, ?_⟩,
    ⟨(sys_part1 ++ sys_do_not_cite ++ sys_part2 ++ sys_what_not_to_cite ++ sys_part3a).data,
      sys_part3b.data ++ "".data ++ sys_part4.data, ?_⟩⟩
  · simp [system_message, String.data_append, List.append_assoc]
  · simp [system_message, String.data_append, List.append_assoc]
  · simp [system_message, String.data_append, List.append_assoc]

set_option maxRecDepth 8192 in
/-- C8 as amended: for every assembled Context Block, the composed system
instruction embeds the block verbatim (between a fixed prefix and suffix).
It does not mandate a `[Source N]` citation convention: it contains the
sentence "DO NOT cite the sources themselves.", its WHAT NOT TO CITE
section lists `[Source 1]` once under a forbidding ❌, and its
EXAMPLE - WRONG WAY section displays a `[Source 1]` citation once, as the
wrong way to answer — the generator is directed to cite the underlying
evidence (Quran, Hadith, history) directly instead.  The user question is
not part of the system instruction (it is sent as the separate user
message, `app.py` line 369). -/
theorem C8_context_verbatim_citation_forbidden (ctx : String) :
    system_message ctx
      = (sys_part1 ++ sys_do_not_cite ++ sys_part2 ++ sys_what_not_to_cite
          ++ sys_part3a ++ sys_wrong_way_example ++ sys_part3b)
        ++ ctx ++ sys_part4
    ∧ sys_do_not_cite.data <:+: (system_message ctx).data
    ∧ sys_what_not_to_cite.data <:+: (system_message ctx).data
    ∧ count_occur "[Source 1]".data sys_what_not_to_cite.data = 1
    ∧ sys_wrong_way_example.data <:+: (system_message ctx).data
    ∧ count_occur "[Source 1]".data sys_wrong_way_example.data = 1 := by
  refine ⟨?_,
    ⟨sys_part1.data,
      (sys_part2 ++ sys_what_not_to_cite ++ sys_part3a ++ sys_wrong_way_example
        ++ sys_part3b).data ++ ctx.data ++ sys_part4.data, ?_⟩,
    ⟨(sys_part1 ++ sys_do_not_cite ++ sys_part2).data,
      (sys_part3a ++ sys_wrong_way_example ++ sys_part3b).data ++ ctx.data ++ sys_part4.data, ?_⟩,
    by decide,
    ⟨(sys_part1 ++ sys_do_not_cite ++ sys_part2 ++ sys_what_not_to_cite ++ sys_part3a).data,
      sys_part3b.data ++ ctx.data ++ sys_part4.data, ?_⟩,
    by decide⟩
  · apply String.ext
    simp [system_message, String.data_append, List.append_assoc]
  · simp [system_message, String.data_append, List.append_assoc]
  · simp [system_message, String.data_append, List.append_assoc]
  · simp [system_message, String.data_append, List.append_assoc]
